/-
Verification of the BuildingData backend (src/backend/data_processors.py,
src/backend/main.py) against its natural-language specification.

Shallow embedding conventions:
* Python floats are embedded as `ℚ` where only parsing, comparison and
  field arithmetic occur, and as `ℝ` where transcendental functions
  (tan, atan, cos, sqrt, pi) appear; IEEE rounding is idealised away.
* OSM tag values (JSON scalars) are `TagVal` (string or number); the
  property bag built by `_create_building_feature` is an association
  list `Props` of `PVal` values, mirroring the Python dict (insertion
  order preserved, update-in-place on existing keys).
* Library calls whose numeric output the code merely consumes are
  oracles passed as parameters: `sa : LRing → ℚ` models
  `pyproj.Geod.polygon_area_perimeter` (signed ellipsoidal ring area),
  `pa` models shapely's planar `geom.area`, `relGeoms` models the
  polygonize/union geometry assembly of `_process_multipolygon_relation`,
  and `validPoly` models `Polygon(coords).buffer(0)` plus the
  validity/emptiness check (`none` = dropped).
* Exceptions are embedded with `Except String`: a function with no
  `try`/`except` in the source is embedded as error-propagating.
-/
import Mathlib

set_option maxHeartbeats 1000000

/- Batteries marks the rational field operations irreducible, which blocks
kernel evaluation of concrete test values; restore reducibility locally so
that closed runs of the embedded functions can be settled by `decide`. -/
attribute [local semireducible] Rat.add Rat.sub Rat.mul Rat.inv

/-! ## Python scalar parsing

`float(s)` on a plain decimal numeral (optional sign, digits with an
optional fractional part, optional exponent, surrounding whitespace
ignored).  The `inf`/`nan`/underscore forms accepted by Python never
occur in the inputs this pipeline parses and are out of scope. -/

def digitVal (c : Char) : ℕ := c.toNat - 48

def natOfDigits (cs : List Char) : ℕ := cs.foldl (fun a c => a * 10 + digitVal c) 0

/- String manipulation is embedded on `List Char` (via `String.toList`)
with structural recursion; the `String` methods of the library are
iterator-based and the kernel cannot evaluate them on closed inputs. -/

/-- Python `str.strip()` / the whitespace trimming `float()` performs. -/
def trimChars (cs : List Char) : List Char :=
  ((cs.dropWhile Char.isWhitespace).reverse.dropWhile Char.isWhitespace).reverse

/-- Python `str.lower()`. -/
def lowerChars (cs : List Char) : List Char := cs.map Char.toLower

def listStartsWith : List Char → List Char → Bool
  | [], _ => true
  | _ :: _, [] => false
  | a :: as, b :: bs => a == b && listStartsWith as bs

/-- Python `str.endswith(suf)`. -/
def listEndsWith (cs suf : List Char) : Bool := listStartsWith suf.reverse cs.reverse

/-- Python `s[:-n]`. -/
def dropRightChars (cs : List Char) (n : ℕ) : List Char := cs.take (cs.length - n)

/-- Split an optional leading sign; returns (isNegative, rest). -/
def splitSign : List Char → Bool × List Char
  | '-' :: rest => (true, rest)
  | '+' :: rest => (false, rest)
  | cs => (false, cs)

/-- Parse `digits [. digits]` or `. digits`; returns the value and the unconsumed rest. -/
def parseMantissa (cs : List Char) : Option (ℚ × List Char) :=
  let intPart := cs.takeWhile Char.isDigit
  let rest1 := cs.dropWhile Char.isDigit
  match rest1 with
  | '.' :: rest2 =>
    let fracPart := rest2.takeWhile Char.isDigit
    let rest3 := rest2.dropWhile Char.isDigit
    if intPart.isEmpty ∧ fracPart.isEmpty then none
    else some ((natOfDigits intPart : ℚ) + (natOfDigits fracPart : ℚ) / (10 ^ fracPart.length), rest3)
  | _ => if intPart.isEmpty then none else some ((natOfDigits intPart : ℚ), rest1)

/-- Parse the part after `e`/`E`: optional sign then at least one digit. -/
def parseExpPart (cs : List Char) : Option ℤ :=
  let sp := splitSign cs
  if sp.2.isEmpty then none
  else if sp.2.all Char.isDigit then some (if sp.1 then -(natOfDigits sp.2 : ℤ) else (natOfDigits sp.2 : ℤ))
  else none

/-- Python `float` on a character list (whitespace-trimming included, as
`float()` itself ignores surrounding whitespace). -/
def parseFloatChars (cs0 : List Char) : Option ℚ :=
  let cs := trimChars cs0
  let sp := splitSign cs
  match parseMantissa sp.2 with
  | none => none
  | some (m, rest) =>
    let signed := if sp.1 then -m else m
    match rest with
    | [] => some signed
    | 'e' :: rest2 => (parseExpPart rest2).map (fun e => signed * (10 : ℚ) ^ e)
    | 'E' :: rest2 => (parseExpPart rest2).map (fun e => signed * (10 : ℚ) ^ e)
    | _ => none

/-- Python `float(s)` on finite decimal notation. -/
def parseFloat (s : String) : Option ℚ := parseFloatChars s.toList

/-! ## OSM tag values (`tags` dicts of raw elements) -/

/-- A raw OSM tag value as it arrives from the Overpass JSON: a string or a number. -/
inductive TagVal where
  | str (s : String)
  | num (q : ℚ)
deriving DecidableEq

/-- A raw tag map (`element['tags']`), an association list keyed by tag name. -/
abbrev Tags := List (String × TagVal)

/-- `tags.get(k)`: first binding wins (Python dicts hold each key once). -/
def tget (tags : Tags) (k : String) : Option TagVal :=
  (tags.find? (fun p => p.1 == k)).map (fun p => p.2)

/-- Python truthiness of `tags.get(k)`: `None`, `""` and `0` are falsy. -/
def truthyTag : Option TagVal → Bool
  | none => false
  | some (.str s) => s ≠ ""
  | some (.num q) => q ≠ 0

/-- `OSMProcessor._parse_numeric` (data_processors.py:649-657):
`None → None`, otherwise `float(value)` with failures mapped to `None`. -/
def parse_numeric : Option TagVal → Option ℚ
  | none => none
  | some (.num q) => some q
  | some (.str s) => parseFloat s

/-- Truncation toward zero, Python `int()` on a float. -/
def truncQ (q : ℚ) : ℤ := if 0 ≤ q then ⌊q⌋ else ⌈q⌉

/-- `OSMProcessor._parse_height` (data_processors.py:661-677): falsy input → `None`;
otherwise lowercase/strip, then suffix `m` → metres, suffix `ft` → × 0.3048,
else plain `float`.  A numeric tag value round-trips through `str` unchanged
(`str(x)` of a float never ends in `m` or `ft`). -/
def parse_height : Option TagVal → Option ℚ
  | none => none
  | some (.num q) => if q = 0 then none else some q
  | some (.str s) =>
    if s = "" then none
    else
      let t := trimChars (lowerChars s.toList)
      if listEndsWith t ['m'] then parseFloatChars (dropRightChars t 1)
      else if listEndsWith t ['f', 't'] then
        (parseFloatChars (dropRightChars t 2)).map (fun q => q * (3048 / 10000))
      else parseFloatChars t

/-- `OSMProcessor._parse_year` (data_processors.py:679-706): falsy → `None`;
a digit string in `[1800, 2030]` → that year; else the part before the first
`-`, if all digits and in range; else `None`.  A numeric tag value is modelled
by its integer digit string when it is a nonnegative integer (`str(q)` of a
non-integral or negative float is never all digits and contains no usable
`-`-prefix). -/
def yearInRange (n : ℕ) : Option ℤ :=
  if 1800 ≤ n ∧ n ≤ 2030 then some (n : ℤ) else none

def parse_year : Option TagVal → Option ℤ
  | none => none
  | some (.num q) =>
    if q = 0 then none
    else if q.den = 1 ∧ 0 ≤ q.num ∧ ((1800 : ℚ) ≤ q ∧ q ≤ 2030) then some q.num else none
  | some (.str s) =>
    if s = "" then none
    else
      let t := trimChars s.toList
      if t ≠ [] ∧ t.all Char.isDigit then yearInRange (natOfDigits t)
      else if t.contains '-' then
        let first := t.takeWhile (fun c => c ≠ '-')
        if first ≠ [] ∧ first.all Char.isDigit then yearInRange (natOfDigits first)
        else none
      else none

/-! ## Geometry model -/

/-- A linear ring: the coordinate list of a shapely ring, (lon, lat) pairs. -/
abbrev LRing := List (ℚ × ℚ)

/-- A shapely `Polygon`: one exterior ring and a list of interior (hole) rings. -/
structure PolyG where
  exterior : LRing
  interiors : List LRing
deriving DecidableEq

/-- A shapely geometry, as dispatched on by `geom_type`. -/
inductive Geom where
  | polygon (p : PolyG)
  | multiPolygon (ps : List PolyG)
  | point (c : ℚ × ℚ)
  | lineString (cs : LRing)
deriving DecidableEq

/-- `geom.geom_type`. -/
def geomType : Geom → String
  | .polygon _ => "Polygon"
  | .multiPolygon _ => "MultiPolygon"
  | .point _ => "Point"
  | .lineString _ => "LineString"

/-! ## `calculate_geodesic_area` (data_processors.py:20-55)

`sa` is the signed-area oracle for `geod.polygon_area_perimeter` applied to a
ring's (lons, lats). -/

/-- The inner `_one(poly)`: absolute exterior area, then subtract the absolute
area of each hole in turn, then clamp at 0. -/
def onePolyArea (sa : LRing → ℚ) (p : PolyG) : ℚ :=
  max (p.interiors.foldl (fun acc r => acc - |sa r|) |sa p.exterior|) 0

/-- `calculate_geodesic_area`: Polygon → `_one`, MultiPolygon → sum of `_one`
over parts, anything else → `0.0`. -/
def calculate_geodesic_area (sa : LRing → ℚ) : Geom → ℚ
  | .polygon p => onePolyArea sa p
  | .multiPolygon ps => (ps.map (onePolyArea sa)).sum
  | _ => 0

/-! ## Exception-transporting variant of `calculate_geodesic_area`

The source contains no `try`/`except`: a throwing geodesic library call
propagates to the caller.  `sa` may fail; the embedding threads the failure. -/

def onePolyAreaE (sa : LRing → Except String ℚ) (p : PolyG) : Except String ℚ := do
  let aExt ← sa p.exterior
  let res ← p.interiors.foldlM (fun acc r => do
    let aInt ← sa r
    pure (acc - |aInt|)) |aExt|
  pure (max res 0)

def calculate_geodesic_areaE (sa : LRing → Except String ℚ) : Geom → Except String ℚ
  | .polygon p => onePolyAreaE sa p
  | .multiPolygon ps => ps.foldlM (fun acc p => do
      let a ← onePolyAreaE sa p
      pure (acc + a)) 0
  | _ => pure 0

/-- `_fallback_area_calculation` (data_processors.py:57-85): planar (lon, lat)
area scaled by 111320 (m per degree latitude) × 111320 · cos(centroid latitude).
`centroid` and `planarArea` are the shapely centroid and planar-area oracles;
neither can throw, so the surrounding `try` is irrelevant.  This function has
no caller anywhere in the repository. -/
noncomputable def fallback_area_calculation (centroid : ℚ × ℚ) (planarArea : ℚ) : ℝ :=
  (planarArea : ℝ) * 111320 * (111320 * Real.cos ((centroid.2 : ℝ) * Real.pi / 180))

/-! ## `infer_building_type` (data_processors.py:170-240) -/

/-- The flat-roof detection block of `infer_building_type`
(data_processors.py:210-222): a priority chain, not a disjunction.  If
`roof:angle` parses, flat iff angle < 5; else if `roof:slope` parses, flat
iff slope < 0.1; else flat iff the lowercased `roof:shape` tag (default
`""`) is one of flat/shed/skillion.  A non-string `roof:shape` value would
raise `AttributeError` at `.lower()` in Python; it is modelled as matching
no flat shape (the error behaviour is outside these claims). -/
def roof_shape_lower (tags : Tags) : String :=
  match tget tags "roof:shape" with
  | some (.str s) => { data := lowerChars s.toList }
  | some (.num _) => " "
  | none => ""

def is_flat_roof (tags : Tags) : Bool :=
  match parse_numeric (tget tags "roof:angle") with
  | some a => a < 5
  | none =>
    match parse_numeric (tget tags "roof:slope") with
    | some s => s < 1 / 10
    | none => roof_shape_lower tags ∈ ["flat", "shed", "skillion"]

/-- The level count used by the geometry heuristics
(data_processors.py:200-208): explicit `building:levels` if it parses, else
`max(1, int(height / 3))` when the height tag parses truthily, else 1. -/
def heuristic_levels (tags : Tags) : ℚ :=
  match parse_numeric (tget tags "building:levels") with
  | some l => l
  | none =>
    match parse_height (tget tags "height") with
    | some h => if h ≠ 0 then ((max 1 (truncQ (h / 3)) : ℤ) : ℚ) else 1
    | none => 1

/-- `infer_building_type(tags, footprint_area_m2, building_geom)`.  The
returned value is the original tag value (any JSON type) or a string
literal, hence the `TagVal` result.  The `building_geom` argument is unused,
as in the source. -/
def infer_building_type (tags : Tags) (footprint_area_m2 : ℚ) (building_geom : Geom) : TagVal :=
  let original := (tget tags "building").getD (.str "yes")
  if original ≠ .str "yes" then original
  else if truthyTag (tget tags "shop") then .str "commercial"
  else if truthyTag (tget tags "amenity") then .str "public"
  else if truthyTag (tget tags "tourism") then .str "public"
  else
    let building_levels := heuristic_levels tags
    if footprint_area_m2 < 100 ∧ building_levels ≤ 1 then .str "other"
    else if 100 ≤ footprint_area_m2 ∧ footprint_area_m2 ≤ 1000 ∧ building_levels ≤ 5 then .str "residential"
    else if 1000 < footprint_area_m2 then
      if 1 < building_levels then .str "residential"
      else if is_flat_roof tags then .str "industrial"
      else .str "large_building"
    else .str "other"

/-! ## Built property bags (`properties` dicts of features) -/

/-- A value in a built feature's property bag: raw tag values carried over,
plus computed numbers (`ℚ` where the pipeline computes rationally, `ℝ` for
the trigonometric roof area), booleans, `None`, and the `data_sources`
string list. -/
inductive PVal where
  | none
  | str (s : String)
  | num (q : ℚ)
  | real (x : ℝ)
  | bool (b : Bool)
  | list (l : List String)

/-- A built property bag, insertion-ordered like a Python dict. -/
abbrev Props := List (String × PVal)

/-- `props.get(k)`, with a stored `None` and a missing key both giving
`PVal.none` (the source only ever tests `is not None`, which conflates the
two in the same way). -/
def dget (props : Props) (k : String) : PVal :=
  ((props.find? (fun p => p.1 == k)).map (fun p => p.2)).getD .none

/-- `props[k] = v`: update the first binding in place, or append. -/
def dset : Props → String → PVal → Props
  | [], k, v => [(k, v)]
  | (k0, v0) :: rest, k, v =>
    if k0 == k then (k0, v) :: rest else (k0, v0) :: dset rest k v

/-- The key list of a property bag, in insertion order. -/
def dkeys (props : Props) : List String := props.map (fun p => p.1)

/-- Python `float(v)` on a stored property value, `none` on failure
(`ValueError`/`TypeError`, both caught at every use site).  `real` values
(the computed roof area) are never re-parsed by the pipeline. -/
def pyFloatP : PVal → Option ℚ
  | .none => none
  | .str s => parseFloat s
  | .num q => some q
  | .real _ => none
  | .bool b => some (if b then 1 else 0)
  | .list _ => none

/-- The combined `k in properties and properties[k] is not None` guard
followed by `float(properties[k])` with exceptions mapped to `None`. -/
def propFloat (props : Props) (k : String) : Option ℚ := pyFloatP (dget props k)

def tagToP : TagVal → PVal
  | .str s => .str s
  | .num q => .num q

def optTagToP (o : Option TagVal) : PVal := (o.map tagToP).getD .none

def optQToP : Option ℚ → PVal
  | some q => .num q
  | none => .none

def optZToP : Option ℤ → PVal
  | some n => .num (n : ℚ)
  | none => .none

/-! ## `calculate_roof_area_factor` (data_processors.py:87-168)

The effective roof angle is determined first (a rational number of degrees
from `roof:angle`, `roof:slope` or the 12.5° default, or the
atan-derived value of the `roof:height` branch), then the factor is
computed from it.  Branch analysis against the source:

* if `roof:angle` parses, the later assignments (lines 116-141) are all
  guarded by `roof_angle is None` and do not run;
* else if `roof:slope` parses, the derivation and default blocks are
  guarded by `roof_slope is None` and line 141 sets the angle to the slope;
* else the `roof:height`/`building:levels` derivation runs: any `float`
  failure is caught and leaves the angle `None` (→ default 12.5);
  `total_height > 0` is equivalent to `building_levels > 0`; and
  `building_width > 0` (width = `sqrt(planar area)`) is equivalent to
  `0 < planar area`, while a negative planar area would make `math.sqrt`
  raise a `ValueError` that the same `except` turns into the default —
  hence the single guard `0 < bl ∧ 0 < pa` below;
* the final `else: roof_factor = 1.05` (line 161) is unreachable: after
  line 141 `roof_angle` is never `None`.  1.05 is returned only by the
  outer exception handler, and no expression on the path can throw. -/

/-- The determined effective roof angle: a rational number of degrees, or
the angle `degrees(atan(roof_height / (sqrt(planar_area) / 2)))` of the
derivation branch, kept symbolically with its rational parameters. -/
inductive EffAngle where
  | deg (q : ℚ)
  | derived (roofHeight planarArea : ℚ)
deriving DecidableEq

/-- Lines 100-141: the angle-determination phase. -/
def effectiveRoofAngle (pa : ℚ) (props : Props) : EffAngle :=
  match propFloat props "roof:angle", propFloat props "roof:slope" with
  | some a, _ => .deg a
  | none, some s => .deg s
  | none, none =>
    match propFloat props "roof:height", propFloat props "building:levels" with
    | some rh, some bl =>
      if 0 < bl ∧ 0 < pa then .derived rh pa else .deg (25 / 2)
    | _, _ => .deg (25 / 2)

/-- `math.radians` of the determined angle; for the derived branch
`radians(degrees(atan x)) = atan x`. -/
noncomputable def angleRadians : EffAngle → ℝ
  | .deg q => (q : ℝ) * Real.pi / 180
  | .derived rh ar => Real.arctan ((rh : ℝ) / (Real.sqrt (ar : ℝ) / 2))

/-- Decidable sign test for `angle_rad > 0` (line 153): a rational angle in
degrees is positive iff its radian value is; the derived `atan` value is
positive iff `roof_height` is (its denominator `sqrt(area)/2` is positive
whenever the branch is taken).  The bridge to the real test is
`angleRadPosB_correct` below. -/
def angleRadPosB : EffAngle → Bool
  | .deg q => 0 < q
  | .derived rh _ => 0 < rh

/-- Lines 87-168 entire: `pa` is the shapely planar area `building_geom.area`. -/
noncomputable def calculate_roof_area_factor (pa : ℚ) (props : Props) : ℝ :=
  let a := effectiveRoofAngle pa props
  if angleRadPosB a then min (1 + 0.15 * Real.tan (angleRadians a)) 1.15 else 1

/-! ## The height block of `_create_building_feature` (data_processors.py:538-555) -/

/-- Python truthiness of the parsed height (`if actual_height:`). -/
def truthyOptQ : Option ℚ → Bool
  | none => false
  | some q => q ≠ 0

/-- Returns (height, height_estimated): a truthily-parsed height tag wins;
else a truthy `building:levels` tag is floated and multiplied by 3 (parse
failure → `(None, False)`); else `(None, False)`. -/
def computeHeight (tags : Tags) : Option ℚ × Bool :=
  let actual := parse_height (tget tags "height")
  if truthyOptQ actual then (actual, false)
  else if truthyTag (tget tags "building:levels") then
    match parse_numeric (tget tags "building:levels") with
    | some f => (some (f * 3), true)
    | none => (none, false)
  else (none, false)

/-! ## OSM elements -/

/-- A relation member: `{'type': ..., 'ref': ..., 'role': ...}`. -/
structure Member where
  mtype : String
  ref : ℤ
  role : String
deriving DecidableEq

/-- A raw OSM element dict.  `etype` is `element['type']`; fields a given
element kind does not carry are empty/zero defaults (the source never reads
them for that kind). -/
structure Element where
  etype : String
  id : ℤ
  tags : Tags
  nodes : List ℤ
  lon : ℚ
  lat : ℚ
  members : List Member
deriving DecidableEq

/-! ## Rounding

Python `round(x, n)` — round-half-to-even on the scaled value. -/

def roundHalfEvenZ (q : ℚ) : ℤ :=
  let f := ⌊q⌋
  if q - f < 1 / 2 then f
  else if q - f > 1 / 2 then f + 1
  else if f % 2 = 0 then f else f + 1

def pyRoundQ (q : ℚ) (n : ℕ) : ℚ := (roundHalfEvenZ (q * 10 ^ n) : ℚ) / 10 ^ n

open Classical in
noncomputable def pyRoundR (x : ℝ) (n : ℕ) : ℝ :=
  let y := x * 10 ^ n
  let f : ℤ := ⌊y⌋
  (if y - f < 1 / 2 then (f : ℝ)
   else if y - f > 1 / 2 then (f : ℝ) + 1
   else if f % 2 = 0 then (f : ℝ) else (f : ℝ) + 1) / 10 ^ n

/-! ## `_create_building_feature` (data_processors.py:504-647)

Only the raw-element branch is embedded: inside this repository the function
is called exclusively from `_manual_process_data` and
`_process_multipolygon_relation` with raw OSM element dicts, which have no
`properties` key.  The geometry is stored as-is: the GeoJSON serialization
at lines 613-641 preserves the coordinate lists verbatim and `shape()` in
the merger reads them back. -/

structure Feature where
  geometry : Geom
  properties : Props

/-- The fixed dict literal of lines 557-606 followed by the two `dset`s of
lines 609-611.  `sa` is the geodesic ring-area oracle, `pa` the shapely
planar-area oracle. -/
noncomputable def create_building_feature (sa : LRing → ℚ) (pa : Geom → ℚ)
    (element : Element) (building_geom : Geom) : Feature :=
  let tags := element.tags
  -- osm_id = f"{element_type}/{element_id}"; the relation branch at line 529
  -- produces the same string, and the '/' check at line 519 never fires.
  let osm_id := element.etype ++ "/" ++ toString element.id
  let is_multipolygon :=
    element.etype == "relation" && (tget tags "type" == some (.str "multipolygon"))
  let relation_id : PVal := if is_multipolygon then .num (element.id : ℚ) else .none
  let area_meters := calculate_geodesic_area sa building_geom
  let inferred := infer_building_type tags area_meters building_geom
  let hh := computeHeight tags
  let properties : Props := [
    ("osm_id", .str osm_id),
    ("building", tagToP inferred),
    ("building:original", optTagToP (some ((tget tags "building").getD (.str "yes")))),
    ("name", optTagToP (some ((tget tags "name").getD (.str "")))),
    ("height", optQToP hh.1),
    ("height_estimated", .bool hh.2),
    ("building:levels", optTagToP (tget tags "building:levels")),
    ("building:flats", optTagToP (tget tags "building:flats")),
    ("building:units", optTagToP (tget tags "building:units")),
    ("building:apartments", optTagToP (tget tags "building:apartments")),
    ("building:rooms", optTagToP (tget tags "building:rooms")),
    ("addr:housenumber", optTagToP (tget tags "addr:housenumber")),
    ("addr:street", optTagToP (tget tags "addr:street")),
    ("addr:postcode", optTagToP (tget tags "addr:postcode")),
    ("addr:city", optTagToP (tget tags "addr:city")),
    ("addr:country", optTagToP (tget tags "addr:country")),
    ("start_date", optTagToP (tget tags "start_date")),
    ("construction", optTagToP (tget tags "construction")),
    ("year_built", optZToP (parse_year (tget tags "year_built"))),
    ("year", optZToP (parse_year (tget tags "year"))),
    ("built_year", optZToP (parse_year (tget tags "built_year"))),
    ("building:year", optZToP (parse_year (tget tags "building:year"))),
    ("building:material", optTagToP (tget tags "building:material")),
    ("building:structure", optTagToP (tget tags "building:structure")),
    ("building:use", optTagToP (tget tags "building:use")),
    ("building:condition", optTagToP (tget tags "building:condition")),
    ("building:state", optTagToP (tget tags "building:state")),
    ("building:architecture", optTagToP (tget tags "building:architecture")),
    ("building:insulation", optTagToP (tget tags "building:insulation")),
    ("building:heating", optTagToP (tget tags "building:heating")),
    ("building:cooling", optTagToP (tget tags "building:cooling")),
    ("building:ventilation", optTagToP (tget tags "building:ventilation")),
    ("roof:height", optTagToP (tget tags "roof:height")),
    ("roof:levels", optTagToP (tget tags "roof:levels")),
    ("roof:angle", optTagToP (tget tags "roof:angle")),
    ("roof:slope", optTagToP (tget tags "roof:slope")),
    ("min_height", optTagToP (tget tags "min_height")),
    ("max_height", optTagToP (tget tags "max_height")),
    ("landuse", optTagToP (tget tags "landuse")),
    ("amenity", optTagToP (tget tags "amenity")),
    ("shop", optTagToP (tget tags "shop")),
    ("office", optTagToP (tget tags "office")),
    ("leisure", optTagToP (tget tags "leisure")),
    ("tourism", optTagToP (tget tags "tourism")),
    ("historic", optTagToP (tget tags "historic")),
    ("is_multipolygon", .bool is_multipolygon),
    ("relation_id", relation_id),
    ("data_sources", .list ["osm"])]
  let roof_factor := calculate_roof_area_factor (pa building_geom) properties
  let properties := dset properties "roof_area_m2" (.real (pyRoundR ((area_meters : ℝ) * roof_factor) 2))
  let properties := dset properties "footprint_area_m2" (.num (pyRoundQ area_meters 2))
  { geometry := building_geom, properties := properties }

/-! ## `_manual_process_data` (data_processors.py:323-395)

The output is modelled as the list of `(element, geometry)` argument pairs
passed to `_create_building_feature` (the function is deterministic, so the
feature list is its image).  `relGeoms` abstracts the geometry-assembly core
of `_process_multipolygon_relation` (lines 397-487): the source appends
`_create_building_feature(relation, g)` for each assembled geometry `g`, so
the relation pass pairs every returned geometry with the relation element
itself.  `validPoly` abstracts `Polygon(coords).buffer(0)` together with
the `is_valid and not is_empty` check and the exception handler (`none` =
the way is skipped). -/

/-- Update-or-append for the id/count maps (dict semantics). -/
def upsert {κ α : Type} [BEq κ] : List (κ × α) → κ → α → List (κ × α)
  | [], k, v => [(k, v)]
  | (k0, v0) :: rest, k, v =>
    if k0 == k then (k0, v) :: rest else (k0, v0) :: upsert rest k v

def dfind {κ α : Type} [BEq κ] (m : List (κ × α)) (k : κ) : Option α :=
  (m.find? (fun p => p.1 == k)).map (fun p => p.2)

/-- Lines 337-340: node id → (lon, lat). -/
def buildNodesMap (elements : List Element) : List (ℤ × (ℚ × ℚ)) :=
  elements.foldl (fun m e => if e.etype == "node" then upsert m e.id (e.lon, e.lat) else m) []

/-- Lines 343-351: way id → resolved coordinates (nodes missing from the map
are dropped; ways with fewer than 2 resolved coordinates are not stored). -/
def buildWaysMap (elements : List Element) (nodesM : List (ℤ × (ℚ × ℚ))) : List (ℤ × LRing) :=
  elements.foldl (fun m e =>
    if e.etype == "way" then
      let coords := e.nodes.filterMap (fun nid => dfind nodesM nid)
      if 2 ≤ coords.length then upsert m e.id coords else m
    else m) []

/-- Lines 359-361: a relation with a truthy `building` tag and either
`type=multipolygon` or more than one member. -/
def isMultipolygonRel (e : Element) : Bool :=
  e.etype == "relation" && truthyTag (tget e.tags "building") &&
    (tget e.tags "type" == some (.str "multipolygon") || 1 < e.members.length)

/-- One iteration of the relation loop: a qualifying relation contributes
`_create_building_feature(relation, g)` for each assembled geometry `g`
(hence every emitted pair carries the relation element itself) and its id is
recorded in `processed_relations` — even when no geometry was assembled. -/
def relationStep (relGeoms : Element → List (ℤ × LRing) → List (ℤ × (ℚ × ℚ)) → List Geom)
    (waysM : List (ℤ × LRing)) (nodesM : List (ℤ × (ℚ × ℚ)))
    (acc : List (Element × Geom) × List ℤ) (e : Element) :
    List (Element × Geom) × List ℤ :=
  if isMultipolygonRel e then
    (acc.1 ++ (relGeoms e waysM nodesM).map (fun g => (e, g)), acc.2 ++ [e.id])
  else acc

/-- Lines 353-373: the relation pass.  Returns the emitted (relation,
geometry) pairs and the `processed_relations` id list. -/
def relationPass (relGeoms : Element → List (ℤ × LRing) → List (ℤ × (ℚ × ℚ)) → List Geom)
    (elements : List Element) (waysM : List (ℤ × LRing)) (nodesM : List (ℤ × (ℚ × ℚ))) :
    List (Element × Geom) × List ℤ :=
  elements.foldl (relationStep relGeoms waysM nodesM) ([], [])

/-- `_is_way_in_processed_relations` (data_processors.py:493-502). -/
def is_way_in_processed_relations (way_id : ℤ) (elements : List Element)
    (processed : List ℤ) : Bool :=
  elements.any fun el =>
    el.etype == "relation" && processed.contains el.id &&
      el.members.any (fun m => m.mtype == "way" && m.ref == way_id)

/-- One iteration of the simple-way loop (lines 376-389). -/
def wayStep (validPoly : LRing → Option Geom) (elements : List Element)
    (waysM : List (ℤ × LRing)) (processed : List ℤ)
    (acc : List (Element × Geom)) (e : Element) : List (Element × Geom) :=
  if e.etype == "way" && truthyTag (tget e.tags "building") then
    if is_way_in_processed_relations e.id elements processed then acc
    else
      let coords := (dfind waysM e.id).getD []
      if 4 ≤ coords.length && (coords.head? == coords.getLast?) then
        match validPoly coords with
        | some g => acc ++ [(e, g)]
        | none => acc
      else acc
  else acc

/-- Lines 375-389: the simple-way pass.  A way with a truthy `building` tag
is emitted only if it is in no processed relation, resolves to ≥ 4
coordinates, is closed (first = last), and survives `buffer(0)` repair. -/
def wayPass (validPoly : LRing → Option Geom) (elements : List Element)
    (waysM : List (ℤ × LRing)) (processed : List ℤ) : List (Element × Geom) :=
  elements.foldl (wayStep validPoly elements waysM processed) []

/-- `_manual_process_data`: relations first, then simple ways, with the
completed `processed_relations` list. -/
def manual_process_data (relGeoms : Element → List (ℤ × LRing) → List (ℤ × (ℚ × ℚ)) → List Geom)
    (validPoly : LRing → Option Geom) (elements : List Element) : List (Element × Geom) :=
  let nodesM := buildNodesMap elements
  let waysM := buildWaysMap elements nodesM
  let rp := relationPass relGeoms elements waysM nodesM
  rp.1 ++ wayPass validPoly elements waysM rp.2

/-! ## Enrichment stubs and `DataMerger` (data_processors.py:708-864) -/

/-- `OvertureProcessor.enrich_buildings_with_overture` (lines 716-719):
returns its input unchanged. -/
def enrich_buildings_with_overture {α : Type} (buildings : List Feature)
    (overture_data : List α) : List Feature :=
  buildings

/-- `ISTATProcessor.estimate_units_from_istat` (lines 729-732): identity. -/
def estimate_units_from_istat {α : Type} (buildings : List Feature)
    (istat_data : List α) : List Feature :=
  buildings

/-- `APEProcessor.enrich_buildings_with_ape` (lines 742-745): identity. -/
def enrich_buildings_with_ape {α : Type} (buildings : List Feature)
    (ape_data : List α) : List Feature :=
  buildings

/-- The per-building body of `DataMerger._calculate_additional_metrics`
(lines 783-830).  `estimated_floor_height` is written when both `height`
and `building:levels` float successfully and levels > 0; `footprint_area`
is always written; `total_floor_area` is `footprint × levels` when the
levels value floats to a positive number, else the footprint alone
(`floors = properties.get('building:levels', 1)`: a missing key would
default to 1 and give the same product).  Nothing on the path can throw. -/
def additional_metrics_step (sa : LRing → ℚ) (b : Feature) : Feature :=
  let props := b.properties
  let props :=
    match propFloat props "height", propFloat props "building:levels" with
    | some h, some l =>
      if 0 < l then dset props "estimated_floor_height" (.num (pyRoundQ (h / l) 1)) else props
    | _, _ => props
  let footprint := calculate_geodesic_area sa b.geometry
  let props := dset props "footprint_area" (.num (pyRoundQ footprint 2))
  let props :=
    match propFloat props "building:levels" with
    | some l =>
      if 0 < l then dset props "total_floor_area" (.num (pyRoundQ (footprint * l) 2))
      else dset props "total_floor_area" (.num (pyRoundQ footprint 2))
    | none => dset props "total_floor_area" (.num (pyRoundQ footprint 2))
  { b with properties := props }

def calculate_additional_metrics (sa : LRing → ℚ) (buildings : List Feature) : List Feature :=
  buildings.map (additional_metrics_step sa)

/-- Insert a string if not already present (first-seen order; Python uses a
`set`, whose iteration order the claims never depend on). -/
def insertOnce (l : List String) (s : String) : List String :=
  if s ∈ l then l else l ++ [s]

def sourcesOf (b : Feature) : List String :=
  match dget b.properties "data_sources" with
  | .list l => l
  | _ => []

structure SourceCounts where
  osm : ℕ
  overture : ℕ
  istat : ℕ
  ape : ℕ

structure Metadata where
  total_buildings : ℕ
  data_sources_used : List String
  building_type_distribution : List (String × ℕ)
  processing_timestamp : String
  source_counts : SourceCounts

/-- `DataMerger._create_metadata` (lines 832-864); `now` stands for
`datetime.now().isoformat()`. -/
def create_metadata (buildings osm_buildings : List Feature)
    (nOverture nIstat nApe : ℕ) (now : String) : Metadata :=
  let data_sources := buildings.foldl (fun acc b => (sourcesOf b).foldl insertOnce acc) []
  let building_types := buildings.foldl (fun acc b =>
    let btype := match dget b.properties "building" with
      | .str s => s
      | _ => "unknown"
    match dfind acc btype with
    | some n => upsert acc btype (n + 1)
    | none => upsert acc btype 1) []
  { total_buildings := buildings.length,
    data_sources_used := data_sources,
    building_type_distribution := building_types,
    processing_timestamp := now,
    source_counts :=
      { osm := osm_buildings.length, overture := nOverture, istat := nIstat, ape := nApe } }

structure FeatureCollection where
  features : List Feature
  metadata : Metadata

/-- `DataMerger.merge_all_data` (lines 750-781): the three identity
enrichment passes, the metrics pass, then the result with metadata. -/
def merge_all_data {α β γ : Type} (sa : LRing → ℚ) (osm_buildings : List Feature)
    (overture_data : List α) (istat_data : List β) (ape_data : List γ)
    (now : String) : FeatureCollection :=
  let enriched := enrich_buildings_with_overture osm_buildings overture_data
  let enriched := estimate_units_from_istat enriched istat_data
  let enriched := enrich_buildings_with_ape enriched ape_data
  let enriched := calculate_additional_metrics sa enriched
  { features := enriched,
    metadata := create_metadata enriched osm_buildings
      overture_data.length istat_data.length ape_data.length now }

/-! ## Concrete fixtures for closed evaluations of the pipeline -/

/-- A constant signed-ring-area oracle (10 m² per ring). -/
def saTen : LRing → ℚ := fun _ => 10

/-- A constant planar-area oracle. -/
def paOne : Geom → ℚ := fun _ => 1

def unitSquare : Geom := Geom.polygon ⟨[(0, 0), (0, 1), (1, 1), (1, 0), (0, 0)], []⟩

/-- A building way with no height and no level tags. -/
def wayNoHeight : Element := ⟨"way", 123, [("building", TagVal.str "yes")], [], 0, 0, []⟩

noncomputable def featNoHeight : Feature :=
  create_building_feature saTen paOne wayNoHeight unitSquare

/-- An auxiliary Overture-style record proposing `height = 25`. -/
def overtureRec : Props := [("height", PVal.num 25)]

/-- A building way with explicit height and level tags. -/
def wayWithLevels : Element :=
  ⟨"way", 7, [("building", TagVal.str "yes"), ("building:levels", TagVal.str "2"),
    ("height", TagVal.str "10m")], [], 0, 0, []⟩

noncomputable def featWithLevels : Feature :=
  create_building_feature saTen paOne wayWithLevels unitSquare

/-- The property keys of a merged feature built from a raw way element:
the fixed dict literal of `_create_building_feature`, the two area fields it
appends, and the three fields of `_calculate_additional_metrics`.  No
completeness-score field exists anywhere in the pipeline. -/
def mergedFeatureKeys : List String :=
  ["osm_id", "building", "building:original", "name", "height", "height_estimated",
   "building:levels", "building:flats", "building:units", "building:apartments",
   "building:rooms", "addr:housenumber", "addr:street", "addr:postcode", "addr:city",
   "addr:country", "start_date", "construction", "year_built", "year", "built_year",
   "building:year", "building:material", "building:structure", "building:use",
   "building:condition", "building:state", "building:architecture", "building:insulation",
   "building:heating", "building:cooling", "building:ventilation", "roof:height",
   "roof:levels", "roof:angle", "roof:slope", "min_height", "max_height", "landuse",
   "amenity", "shop", "office", "leisure", "tourism", "historic", "is_multipolygon",
   "relation_id", "data_sources", "roof_area_m2", "footprint_area_m2",
   "estimated_floor_height", "footprint_area", "total_floor_area"]


/-! # Theorems -/

/-! ## Helper lemmas -/

lemma foldl_sub_abs (sa : LRing → ℚ) (l : List LRing) (a : ℚ) :
    l.foldl (fun acc r => acc - |sa r|) a = a - (l.map (fun r => |sa r|)).sum := by
  induction l generalizing a with
  | nil => simp
  | cons x xs ih => simp [ih, sub_sub]

lemma foldlM_ok {α β : Type} (f : β → α → β) (l : List α) (a : β) :
    l.foldlM (fun acc x => (Except.ok (f acc x) : Except String β)) a = Except.ok (l.foldl f a) := by
  induction l generalizing a with
  | nil => rfl
  | cons x xs ih => simpa [List.foldlM] using ih (f a x)

lemma foldl_add_sum {α : Type} (f : α → ℚ) (l : List α) (a : ℚ) :
    l.foldl (fun acc x => acc + f x) a = a + (l.map f).sum := by
  induction l generalizing a with
  | nil => simp
  | cons x xs ih => simp [ih, add_assoc]

/-- On a never-failing oracle the exception-transporting embedding agrees with
the pure one (consistency of the two translations of lines 20-55). -/
lemma calculate_geodesic_areaE_ok (sa : LRing → ℚ) (g : Geom) :
    calculate_geodesic_areaE (fun r => Except.ok (sa r)) g
      = Except.ok (calculate_geodesic_area sa g) := by
  have hone : ∀ p : PolyG, onePolyAreaE (fun r => Except.ok (sa r)) p = Except.ok (onePolyArea sa p) := by
    intro p
    show (do
      let aExt ← (Except.ok (sa p.exterior) : Except String ℚ)
      let res ← p.interiors.foldlM (fun acc r => do
        let aInt ← (Except.ok (sa r) : Except String ℚ)
        pure (acc - |aInt|)) |aExt|
      pure (max res 0)) = _
    rw [show (fun acc r => do
        let aInt ← (Except.ok (sa r) : Except String ℚ)
        pure (acc - |aInt|)) = fun (acc : ℚ) r => (Except.ok (acc - |sa r|) : Except String ℚ)
      from rfl]
    rw [show ∀ x : ℚ, (Except.ok x : Except String ℚ) >>= (fun aExt => do
        let res ← p.interiors.foldlM (fun (acc : ℚ) r => (Except.ok (acc - |sa r|) : Except String ℚ)) |aExt|
        pure (max res 0)) = (do
        let res ← p.interiors.foldlM (fun (acc : ℚ) r => (Except.ok (acc - |sa r|) : Except String ℚ)) |x|
        pure (max res 0)) from fun x => rfl]
    rw [foldlM_ok (fun acc r => acc - |sa r|)]
    rfl
  cases g with
  | polygon p => simpa [calculate_geodesic_areaE, calculate_geodesic_area] using hone p
  | multiPolygon ps =>
    simp only [calculate_geodesic_areaE, calculate_geodesic_area]
    have hfun : (fun (acc : ℚ) p => do
        let v ← onePolyAreaE (fun r => Except.ok (sa r)) p
        pure (acc + v)) = fun (acc : ℚ) p => (Except.ok (acc + onePolyArea sa p) : Except String ℚ) := by
      funext acc p
      rw [hone p]
      rfl
    rw [hfun, foldlM_ok (fun acc p => acc + onePolyArea sa p), foldl_add_sum, zero_add]
  | point c => rfl
  | lineString cs => rfl

/-! ## C1 -/

/-- C1: for a Polygon, `calculate_geodesic_area` returns the absolute
ellipsoidal area of the exterior ring minus the sum of the absolute areas of
the hole rings — magnitudes, not signed values — clamped at 0; for a
MultiPolygon it returns the sum of the per-polygon values so computed.  The
signed per-ring ellipsoidal area `sa` is arbitrary. -/
theorem geodesic_area_polygon_and_multipolygon (sa : LRing → ℚ) (ext : LRing)
    (ints : List LRing) (ps : List PolyG) :
    calculate_geodesic_area sa (.polygon ⟨ext, ints⟩)
      = max (|sa ext| - (ints.map (fun r => |sa r|)).sum) 0
    ∧ calculate_geodesic_area sa (.multiPolygon ps)
      = (ps.map (fun p =>
          max (|sa p.exterior| - (p.interiors.map (fun r => |sa r|)).sum) 0)).sum := by
  constructor
  · simp [calculate_geodesic_area, onePolyArea, foldl_sub_abs]
  · simp only [calculate_geodesic_area]
    have hfun : onePolyArea sa = fun p =>
        max (|sa p.exterior| - (p.interiors.map (fun r => |sa r|)).sum) 0 := by
      funext p
      simp [onePolyArea, foldl_sub_abs]
    rw [hfun]

/-! ## C2 -/

/-- C2 (code bug): `calculate_geodesic_area` contains no `try`/`except` and
never calls `_fallback_area_calculation` (which has no caller in the
repository), so a throwing geodesic measurement propagates to the caller
instead of triggering the planar fallback: on an oracle that throws, the
embedded computation returns the error itself. -/
theorem geodesic_error_reaches_caller :
    calculate_geodesic_areaE (fun _ => Except.error "geodesic computation failed")
      (Geom.polygon ⟨[(0, 0), (0, 1), (1, 1), (0, 0)], []⟩)
      = Except.error "geodesic computation failed" := rfl

/-! ## C10 -/

/-- C10: on a geometry that is neither a Polygon nor a MultiPolygon,
`calculate_geodesic_area` returns exactly 0 (the final `return 0.0` at line
55) — area is total over all geometry types. -/
theorem geodesic_area_other_geometries_zero (sa : LRing → ℚ) (g : Geom)
    (h1 : geomType g ≠ "Polygon") (h2 : geomType g ≠ "MultiPolygon") :
    calculate_geodesic_area sa g = 0 := by
  cases g with
  | polygon p => exact absurd rfl h1
  | multiPolygon ps => exact absurd rfl h2
  | point c => rfl
  | lineString cs => rfl

theorem geodesic_area_other_geometries_zero_witness :
    geomType (Geom.point (1, 2)) ≠ "Polygon"
    ∧ geomType (Geom.point (1, 2)) ≠ "MultiPolygon"
    ∧ calculate_geodesic_area (fun _ => 37) (Geom.point (1, 2)) = 0 :=
  ⟨by decide, by decide,
    geodesic_area_other_geometries_zero (fun _ => 37) (Geom.point (1, 2))
      (by decide) (by decide)⟩

/-! ## C3 -/

/-- C3: the classifier's rules fire in the source order with the first match
winning, and the spec's concrete cases come out as stated: `building="yes"`
alone at 50 m² → other; levels 3 at 500 m² → residential; levels 1, flat
roof at 2000 m² → industrial; non-flat roof (explicit levels 1, or no level
info) at 2000 m² → large_building; `building="church"` is returned unchanged
for every footprint and geometry, even with a shop tag present; shop beats
amenity and tourism, amenity beats tourism. -/
theorem infer_building_type_rule_order_and_cases :
    (∀ (q : ℚ) (g : Geom),
      infer_building_type [("building", TagVal.str "church")] q g = .str "church")
    ∧ (∀ (q : ℚ) (g : Geom),
      infer_building_type [("building", TagVal.str "church"), ("shop", TagVal.str "bakery")] q g
        = .str "church")
    ∧ infer_building_type [("building", TagVal.str "yes")] 50 (Geom.point (0, 0)) = .str "other"
    ∧ infer_building_type [("building", TagVal.str "yes"), ("building:levels", TagVal.str "3")]
        500 (Geom.point (0, 0)) = .str "residential"
    ∧ infer_building_type [("building", TagVal.str "yes"), ("building:levels", TagVal.str "1"),
        ("roof:shape", TagVal.str "flat")] 2000 (Geom.point (0, 0)) = .str "industrial"
    ∧ infer_building_type [("building", TagVal.str "yes"), ("building:levels", TagVal.str "1"),
        ("roof:shape", TagVal.str "gabled")] 2000 (Geom.point (0, 0)) = .str "large_building"
    ∧ infer_building_type [("building", TagVal.str "yes")] 2000 (Geom.point (0, 0))
        = .str "large_building"
    ∧ infer_building_type [("building", TagVal.str "yes"), ("shop", TagVal.str "bakery"),
        ("amenity", TagVal.str "school"), ("tourism", TagVal.str "hotel")] 500 (Geom.point (0, 0))
        = .str "commercial"
    ∧ infer_building_type [("building", TagVal.str "yes"), ("amenity", TagVal.str "school"),
        ("tourism", TagVal.str "hotel")] 500 (Geom.point (0, 0)) = .str "public" :=
  ⟨fun q g => rfl, fun q g => rfl, by decide, by decide, by decide, by decide, by decide,
    by decide, by decide⟩

/-! ## C4 -/

/-- C4 counterexample: the height tag `"0m"` parses (to 0.0), yet the
estimator does not return it verbatim with `height_estimated = false` — the
Python truthiness test `if actual_height:` treats the parsed 0.0 as absent
and the result is `(None, False)`. -/
theorem height_zero_parse_counterexample :
    parse_height (tget [("height", TagVal.str "0m")] "height") = some 0
    ∧ computeHeight [("height", TagVal.str "0m")] ≠ (some 0, false)
    ∧ computeHeight [("height", TagVal.str "0m")] = (none, false) := by decide

/-- C4 amended: if the explicit height tag parses to a NON-ZERO value it is
returned verbatim with `height_estimated = false` ("15m" → 15.0, "50ft" →
15.24 ± 0.01); if it fails to parse or parses to 0, then a truthy
`building:levels` tag that floats to `f` gives `(f × 3, estimated)`, a
truthy but unparseable one gives null, and otherwise the height is null. -/
theorem height_estimator_amended :
    (∀ (tags : Tags) (h : ℚ),
      parse_height (tget tags "height") = some h → h ≠ 0 →
      computeHeight tags = (some h, false))
    ∧ (∀ tags : Tags,
      (parse_height (tget tags "height") = none ∨ parse_height (tget tags "height") = some 0) →
      (truthyTag (tget tags "building:levels") = true →
        (∀ f : ℚ, parse_numeric (tget tags "building:levels") = some f →
          computeHeight tags = (some (f * 3), true))
        ∧ (parse_numeric (tget tags "building:levels") = none →
          computeHeight tags = (none, false)))
      ∧ (truthyTag (tget tags "building:levels") = false → computeHeight tags = (none, false)))
    ∧ computeHeight [("height", TagVal.str "15m")] = (some 15, false)
    ∧ computeHeight [("height", TagVal.str "50ft")] = (some (381 / 25), false)
    ∧ |(381 / 25 : ℚ) - 1524 / 100| ≤ 1 / 100
    ∧ computeHeight [("building:levels", TagVal.str "4")] = (some 12, true) := by
  refine ⟨?_, ?_, by decide, by decide, by decide, by decide⟩
  · intro tags h hp hne
    simp [computeHeight, hp, truthyOptQ, hne]
  · intro tags hp
    have hact : truthyOptQ (parse_height (tget tags "height")) = false := by
      rcases hp with h | h <;> simp [truthyOptQ, h]
    refine ⟨fun htr => ⟨fun f hf => ?_, fun hf => ?_⟩, fun htr => ?_⟩
    · simp [computeHeight, hact, htr, hf]
    · simp [computeHeight, hact, htr, hf]
    · simp [computeHeight, hact, htr]

theorem height_estimator_amended_witness :
    computeHeight [("height", TagVal.str "15m")] = (some 15, false) :=
  height_estimator_amended.1 [("height", TagVal.str "15m")] 15 (by decide) (by norm_num)

/-! ## C6 -/

/-- C6 counterexample: with `roof:angle = "10"` and `roof:slope = "0.05"`
the slope disjunct of the claim holds (0.05 < 0.10), yet `is_flat_roof` is
false — the source consults the slope only when the angle fails to parse. -/
theorem flat_roof_disjunction_counterexample :
    parse_numeric (tget [("roof:angle", TagVal.str "10"), ("roof:slope", TagVal.str "0.05")]
        "roof:slope") = some (1 / 20)
    ∧ (1 / 20 : ℚ) < 1 / 10
    ∧ is_flat_roof [("roof:angle", TagVal.str "10"), ("roof:slope", TagVal.str "0.05")]
        = false := by decide

/-- C6 amended: flat-roof detection is a priority chain, not a disjunction:
if `roof:angle` parses to `a`, flat iff `a < 5` (slope and shape ignored);
else if `roof:slope` parses to `s`, flat iff `s < 0.10`; else flat iff the
lowercased roof-shape tag is flat/shed/skillion; false/unknown otherwise. -/
theorem flat_roof_priority_amended (tags : Tags) :
    (∀ a : ℚ, parse_numeric (tget tags "roof:angle") = some a →
      is_flat_roof tags = decide (a < 5))
    ∧ (parse_numeric (tget tags "roof:angle") = none →
      ∀ s : ℚ, parse_numeric (tget tags "roof:slope") = some s →
        is_flat_roof tags = decide (s < 1 / 10))
    ∧ (parse_numeric (tget tags "roof:angle") = none →
      parse_numeric (tget tags "roof:slope") = none →
        is_flat_roof tags = decide (roof_shape_lower tags ∈ ["flat", "shed", "skillion"])) := by
  refine ⟨fun a ha => ?_, fun ha s hs => ?_, fun ha hs => ?_⟩
  · simp [is_flat_roof, ha]
  · simp [is_flat_roof, ha, hs]
  · simp [is_flat_roof, ha, hs]

theorem flat_roof_priority_amended_witness :
    is_flat_roof [("roof:angle", TagVal.str "10"), ("roof:slope", TagVal.str "0.05")]
      = decide ((10 : ℚ) < 5) :=
  (flat_roof_priority_amended _).1 10 (by decide)

/-! ## C7 -/

lemma effAngle_derived_pos (pa : ℚ) (props : Props) (rh ar : ℚ)
    (h : effectiveRoofAngle pa props = .derived rh ar) : 0 < ar := by
  unfold effectiveRoofAngle at h
  cases hA : propFloat props "roof:angle" with
  | some a => rw [hA] at h; simp at h
  | none =>
    rw [hA] at h
    cases hS : propFloat props "roof:slope" with
    | some s => rw [hS] at h; simp at h
    | none =>
      rw [hS] at h
      cases hH : propFloat props "roof:height" with
      | none => rw [hH] at h; simp at h
      | some rh2 =>
        rw [hH] at h
        cases hL : propFloat props "building:levels" with
        | none => rw [hL] at h; simp at h
        | some bl =>
          rw [hL] at h
          by_cases hc : 0 < bl ∧ 0 < pa
          · simp only [hc, if_true, and_self] at h
            simp only [EffAngle.derived.injEq] at h
            rw [← h.2]
            exact hc.2
          · simp [hc] at h

lemma arctan_pos_iff (x : ℝ) : 0 < Real.arctan x ↔ 0 < x := by
  constructor
  · intro h
    by_contra hx
    push_neg at hx
    have h2 := Real.arctan_strictMono.monotone hx
    rw [Real.arctan_zero] at h2
    linarith
  · intro h
    have h2 := Real.arctan_strictMono h
    rwa [Real.arctan_zero] at h2

lemma angleRadPos_correct (pa : ℚ) (props : Props) :
    angleRadPosB (effectiveRoofAngle pa props) = true ↔
      0 < angleRadians (effectiveRoofAngle pa props) := by
  cases hE : effectiveRoofAngle pa props with
  | deg q =>
    simp only [angleRadPosB, angleRadians, decide_eq_true_eq]
    rw [mul_div_assoc, mul_pos_iff_of_pos_right (by positivity)]
    exact_mod_cast Iff.rfl
  | derived rh ar =>
    have har : 0 < ar := effAngle_derived_pos pa props rh ar hE
    have harR : (0 : ℝ) < (ar : ℝ) := by exact_mod_cast har
    have hsq : (0 : ℝ) < Real.sqrt (ar : ℝ) / 2 := by positivity
    simp only [angleRadPosB, angleRadians, decide_eq_true_eq]
    rw [arctan_pos_iff, lt_div_iff₀ hsq, zero_mul]
    exact_mod_cast Iff.rfl

/-- C7 counterexample: with an explicit `roof:angle = "-10"` the source
returns factor 1.0 (the `angle_rad > 0` test fails), while the claim's
formula `min(1 + 0.15·tan(angle), 1.15)` evaluates below 1 — the claim's
factor equation is false for negative angles. -/
theorem roof_factor_formula_counterexample :
    calculate_roof_area_factor 100 [("roof:angle", PVal.str "-10")]
      ≠ min (1 + 0.15 * Real.tan ((-10 : ℝ) * Real.pi / 180)) 1.15 := by
  have hE : effectiveRoofAngle 100 [("roof:angle", PVal.str "-10")] = .deg (-10) := by decide
  have hB : angleRadPosB (EffAngle.deg (-10)) = false := by decide
  have h1 : calculate_roof_area_factor 100 [("roof:angle", PVal.str "-10")] = 1 := by
    simp [calculate_roof_area_factor, hE, hB]
  have ht : 0 < Real.tan (10 * Real.pi / 180) :=
    Real.tan_pos_of_pos_of_lt_pi_div_two (by positivity) (by nlinarith [Real.pi_pos])
  have heq : Real.tan ((-10 : ℝ) * Real.pi / 180) = -Real.tan (10 * Real.pi / 180) := by
    rw [show ((-10 : ℝ) * Real.pi / 180) = -(10 * Real.pi / 180) by ring, Real.tan_neg]
  have h2 : min (1 + 0.15 * Real.tan ((-10 : ℝ) * Real.pi / 180)) 1.15 < 1 := by
    calc min (1 + 0.15 * Real.tan ((-10 : ℝ) * Real.pi / 180)) 1.15
        ≤ 1 + 0.15 * Real.tan ((-10 : ℝ) * Real.pi / 180) := min_le_left _ _
      _ < 1 := by rw [heq]; nlinarith
  rw [h1]
  exact ne_of_gt h2

/-- C7 amended: the effective angle is determined by priority — explicit
`roof:angle`, else `roof:slope` taken directly as degrees, else the
`roof:height`/levels derivation `atan(roof_height / (sqrt(planar area)/2))`
when the guards hold, else the 12.5° default (so an angle is ALWAYS
determined; the 1.05 fallback belongs to the dead `else` branch and the
exception handler only).  The factor is `min(1 + 0.15·tan θ, 1.15)` when
the determined angle θ is positive, and exactly 1.0 when θ ≤ 0. -/
theorem roof_factor_amended (pa : ℚ) (props : Props) :
    (∀ a : ℚ, propFloat props "roof:angle" = some a →
      effectiveRoofAngle pa props = .deg a)
    ∧ (propFloat props "roof:angle" = none →
      ∀ s : ℚ, propFloat props "roof:slope" = some s →
        effectiveRoofAngle pa props = .deg s)
    ∧ (propFloat props "roof:angle" = none → propFloat props "roof:slope" = none →
      (∀ rh bl : ℚ, propFloat props "roof:height" = some rh →
        propFloat props "building:levels" = some bl →
        effectiveRoofAngle pa props
          = if 0 < bl ∧ 0 < pa then .derived rh pa else .deg (25 / 2))
      ∧ ((propFloat props "roof:height" = none ∨ propFloat props "building:levels" = none) →
        effectiveRoofAngle pa props = .deg (25 / 2)))
    ∧ (0 < angleRadians (effectiveRoofAngle pa props) →
      calculate_roof_area_factor pa props
        = min (1 + 0.15 * Real.tan (angleRadians (effectiveRoofAngle pa props))) 1.15)
    ∧ (angleRadians (effectiveRoofAngle pa props) ≤ 0 →
      calculate_roof_area_factor pa props = 1) := by
  refine ⟨fun a ha => ?_, fun ha s hs => ?_, fun ha hs => ⟨fun rh bl hrh hbl => ?_, fun hor => ?_⟩,
    fun hpos => ?_, fun hle => ?_⟩
  · simp [effectiveRoofAngle, ha]
  · simp [effectiveRoofAngle, ha, hs]
  · simp [effectiveRoofAngle, ha, hs, hrh, hbl]
  · rcases hor with h | h
    · simp [effectiveRoofAngle, ha, hs, h]
    · cases hH : propFloat props "roof:height" with
      | none => simp [effectiveRoofAngle, ha, hs, hH]
      | some rh => simp [effectiveRoofAngle, ha, hs, hH, h]
  · have hb : angleRadPosB (effectiveRoofAngle pa props) = true :=
      (angleRadPos_correct pa props).mpr hpos
    simp [calculate_roof_area_factor, hb]
  · have hb : angleRadPosB (effectiveRoofAngle pa props) = false := by
      cases hB : angleRadPosB (effectiveRoofAngle pa props) with
      | false => rfl
      | true => exact absurd ((angleRadPos_correct pa props).mp hB) (not_lt.mpr hle)
    simp [calculate_roof_area_factor, hb]

theorem roof_factor_amended_witness :
    calculate_roof_area_factor 100 [("roof:angle", PVal.str "45")]
      = min (1 + 0.15 * Real.tan (angleRadians (EffAngle.deg 45))) 1.15 := by
  have h := roof_factor_amended 100 [("roof:angle", PVal.str "45")]
  have hE : effectiveRoofAngle 100 [("roof:angle", PVal.str "45")] = .deg 45 :=
    h.1 45 (by decide)
  have hpos : 0 < angleRadians (effectiveRoofAngle 100 [("roof:angle", PVal.str "45")]) := by
    rw [hE]
    simp only [angleRadians]
    positivity
  have hfac := h.2.2.2.1 hpos
  rwa [hE] at hfac

/-! ## C8 -/

lemma relationPass_snd_mono (relGeoms : Element → List (ℤ × LRing) → List (ℤ × (ℚ × ℚ)) → List Geom)
    (waysM : List (ℤ × LRing)) (nodesM : List (ℤ × (ℚ × ℚ))) (es : List Element)
    (acc : List (Element × Geom) × List ℤ) (i : ℤ) (h : i ∈ acc.2) :
    i ∈ (es.foldl (relationStep relGeoms waysM nodesM) acc).2 := by
  induction es generalizing acc with
  | nil => exact h
  | cons e es ih =>
    apply ih
    unfold relationStep
    by_cases hc : isMultipolygonRel e = true
    · simp only [hc, if_true]
      exact List.mem_append_left _ h
    · simpa [hc] using h

lemma relationPass_snd_mem (relGeoms : Element → List (ℤ × LRing) → List (ℤ × (ℚ × ℚ)) → List Geom)
    (waysM : List (ℤ × LRing)) (nodesM : List (ℤ × (ℚ × ℚ))) (es : List Element)
    (r : Element) (hmp : isMultipolygonRel r = true) :
    ∀ acc : List (Element × Geom) × List ℤ, r ∈ es →
      r.id ∈ (es.foldl (relationStep relGeoms waysM nodesM) acc).2 := by
  induction es with
  | nil => intro acc hr; cases hr
  | cons e es ih =>
    intro acc hr
    rw [List.foldl_cons]
    rcases List.mem_cons.mp hr with heq | hmem
    · subst heq
      apply relationPass_snd_mono
      simp [relationStep, hmp]
    · exact ih _ hmem

lemma relationPass_fst_rel (relGeoms : Element → List (ℤ × LRing) → List (ℤ × (ℚ × ℚ)) → List Geom)
    (waysM : List (ℤ × LRing)) (nodesM : List (ℤ × (ℚ × ℚ))) (es : List Element)
    (acc : List (Element × Geom) × List ℤ)
    (hacc : ∀ p ∈ acc.1, p.1.etype = "relation") :
    ∀ p ∈ (es.foldl (relationStep relGeoms waysM nodesM) acc).1, p.1.etype = "relation" := by
  induction es generalizing acc with
  | nil => exact hacc
  | cons e es ih =>
    apply ih
    intro p hp
    unfold relationStep at hp
    by_cases hc : isMultipolygonRel e = true
    · rw [if_pos hc] at hp
      rcases List.mem_append.mp hp with h | h
      · exact hacc p h
      · rcases List.mem_map.mp h with ⟨g, hg, rfl⟩
        simp only [isMultipolygonRel, Bool.and_eq_true, beq_iff_eq] at hc
        exact hc.1.1
    · rw [if_neg hc] at hp
      exact hacc p hp

lemma wayPass_all (validPoly : LRing → Option Geom) (elements : List Element)
    (waysM : List (ℤ × LRing)) (processed : List ℤ) (w : ℤ)
    (hw : is_way_in_processed_relations w elements processed = true) :
    ∀ (es : List Element) (acc : List (Element × Geom)),
      (∀ p ∈ acc, ¬(p.1.etype = "way" ∧ p.1.id = w)) →
      ∀ p ∈ es.foldl (wayStep validPoly elements waysM processed) acc,
        ¬(p.1.etype = "way" ∧ p.1.id = w) := by
  intro es
  induction es with
  | nil => intro acc hacc; exact hacc
  | cons e es ih =>
    intro acc hacc
    apply ih
    intro p hp
    unfold wayStep at hp
    by_cases h1 : (e.etype == "way" && truthyTag (tget e.tags "building")) = true
    · rw [if_pos h1] at hp
      by_cases h2 : is_way_in_processed_relations e.id elements processed = true
      · rw [if_pos h2] at hp
        exact hacc p hp
      · rw [if_neg h2] at hp
        simp only at hp
        by_cases h3 : (4 ≤ ((dfind waysM e.id).getD []).length
            && (((dfind waysM e.id).getD []).head? == ((dfind waysM e.id).getD []).getLast?)) = true
        · rw [if_pos h3] at hp
          cases hv : validPoly ((dfind waysM e.id).getD []) with
          | some g =>
            rw [hv] at hp
            rcases List.mem_append.mp hp with h | h
            · exact hacc p h
            · have hpe : p = (e, g) := List.mem_singleton.mp h
              subst hpe
              rintro ⟨hw1, hw2⟩
              rw [hw2] at h2
              exact h2 hw
          | none =>
            rw [hv] at hp
            exact hacc p hp
        · rw [if_neg h3] at hp
          exact hacc p hp
    · rw [if_neg h1] at hp
      exact hacc p hp

/-- C8: a way that is a member of any relation meeting the multipolygon
condition (and in particular of any successfully processed multipolygon
relation) is never also emitted as a simple-way building: the relation pass
completes first, recording the relation id, and the simple-way loop checks
`_is_way_in_processed_relations` before emitting.  Every output pair with a
way provenance therefore has an id different from `w`. -/
theorem relation_member_way_not_emitted
    (relGeoms : Element → List (ℤ × LRing) → List (ℤ × (ℚ × ℚ)) → List Geom)
    (validPoly : LRing → Option Geom) (elements : List Element)
    (r : Element) (w : ℤ)
    (hr : r ∈ elements) (hmp : isMultipolygonRel r = true)
    (hmem : ∃ m ∈ r.members, m.mtype = "way" ∧ m.ref = w) :
    (manual_process_data relGeoms validPoly elements).all
      (fun p => !(p.1.etype == "way" && p.1.id == w)) = true := by
  have hrel : r.etype = "relation" := by
    have hc := hmp
    simp only [isMultipolygonRel, Bool.and_eq_true, beq_iff_eq] at hc
    exact hc.1.1
  rw [List.all_eq_true]
  intro p hp
  suffices hs : ¬(p.1.etype = "way" ∧ p.1.id = w) by
    simp only [Bool.not_eq_true', Bool.and_eq_false_iff]
    by_cases he : p.1.etype = "way"
    · right
      rw [beq_eq_false_iff_ne]
      intro hid
      exact hs ⟨he, hid⟩
    · left
      rw [beq_eq_false_iff_ne]
      exact he
  unfold manual_process_data at hp
  simp only at hp
  have hproc : r.id ∈ (relationPass relGeoms elements
      (buildWaysMap elements (buildNodesMap elements)) (buildNodesMap elements)).2 :=
    relationPass_snd_mem _ _ _ elements r hmp ([], []) hr
  have hw_true : is_way_in_processed_relations w elements
      (relationPass relGeoms elements
        (buildWaysMap elements (buildNodesMap elements)) (buildNodesMap elements)).2 = true := by
    unfold is_way_in_processed_relations
    rw [List.any_eq_true]
    refine ⟨r, hr, ?_⟩
    obtain ⟨m, hm, hmt, href⟩ := hmem
    rw [Bool.and_eq_true, Bool.and_eq_true]
    refine ⟨⟨by simp [hrel], by simpa using hproc⟩, ?_⟩
    rw [List.any_eq_true]
    exact ⟨m, hm, by simp [hmt, href]⟩
  rcases List.mem_append.mp hp with h | h
  · have := relationPass_fst_rel relGeoms _ _ elements ([], []) (by intro q hq; cases hq) p h
    intro hcon
    rw [hcon.1] at this
    simp at this
  · exact wayPass_all validPoly elements _ _ w hw_true elements [] (by intro q hq; cases hq) p h

theorem relation_member_way_not_emitted_witness :
    (manual_process_data (fun _ _ _ => []) (fun _ => none)
      [⟨"way", 5, [("building", TagVal.str "yes")], [1, 2, 3, 1], 0, 0, []⟩,
       ⟨"relation", 9, [("building", TagVal.str "yes"), ("type", TagVal.str "multipolygon")],
         [], 0, 0, [⟨"way", 5, "outer"⟩]⟩]).all
      (fun p => !(p.1.etype == "way" && p.1.id == 5)) = true :=
  relation_member_way_not_emitted (fun _ _ _ => []) (fun _ => none) _
    ⟨"relation", 9, [("building", TagVal.str "yes"), ("type", TagVal.str "multipolygon")],
      [], 0, 0, [⟨"way", 5, "outer"⟩]⟩ 5
    (by decide) (by decide) (by decide)

/-! ## C5 -/

/-- C5 (code bug): `enrich_buildings_with_overture` returns its input
unchanged (the enrichment is unimplemented), so merging an auxiliary record
that proposes `height = 25` into a feature whose height is null leaves the
height null and `data_sources` untouched — even when run twice — instead of
populating the field and appending the source tag as the spec requires.
The non-override half of the claim holds only vacuously. -/
theorem overture_enrichment_is_identity_bug :
    enrich_buildings_with_overture [featNoHeight] [overtureRec] = [featNoHeight]
    ∧ enrich_buildings_with_overture
        (enrich_buildings_with_overture [featNoHeight] [overtureRec]) [overtureRec]
      = [featNoHeight]
    ∧ dget featNoHeight.properties "height" = PVal.none
    ∧ dget featNoHeight.properties "data_sources" = PVal.list ["osm"] :=
  ⟨rfl, rfl, rfl, rfl⟩

/-! ## C9 -/

/-- C9 (code bug): after `merge_all_data` the output feature carries exactly
the keys of the builder's fixed dict plus the two area fields and the three
metric fields — and no data-completeness score of any kind is among them:
no completeness computation exists in the repository. -/
theorem merge_output_has_no_completeness_field :
    ((merge_all_data saTen [featWithLevels] ([] : List Props) ([] : List Props)
        ([] : List Props) "2026-10-12T00:00:00").features.map
      (fun f => dkeys f.properties)) = [mergedFeatureKeys]
    ∧ "data_completeness" ∉ mergedFeatureKeys
    ∧ "completeness_score" ∉ mergedFeatureKeys
    ∧ "data_completeness_score" ∉ mergedFeatureKeys
    ∧ "completeness" ∉ mergedFeatureKeys :=
  ⟨rfl, by decide, by decide, by decide, by decide⟩
